import Mathlib

/-!
Shallow embedding of `src/app.py` (LemmaTree): a single-page Streamlit app
that sends an uploaded LaTeX file to the Gemini API and renders the
returned Mermaid code.  We model

* the response normalization (lines 124-131): stripping markdown code
  fences from the model's raw text before it is stored, and
* the generation attempt (lines 61-150) together with the display section
  (lines 157-176), with the outcomes of the external effects (UTF-8
  decode, client construction, API call, diagram render) supplied as an
  explicit environment.
-/

/-- Python whitespace for `str.strip()` (ASCII part: space, tab, LF, CR,
vertical tab, form feed).  The inputs of interest are ASCII, so the extra
Unicode space characters Python also strips are not modelled. -/
def isPySpace (c : Char) : Bool :=
  c = ' ' || c = '\t' || c = '\n' || c = '\r' || c = '\x0b' || c = '\x0c'

/-- Python `s.strip()` on a list of characters: drop leading and trailing
whitespace. -/
def pyStripList (s : List Char) : List Char :=
  ((s.dropWhile isPySpace).reverse.dropWhile isPySpace).reverse

/-- Python `s.strip()` on strings. -/
def pyStrip (s : String) : String :=
  ⟨pyStripList s.toList⟩

/-- Everything after the first occurrence of `sep`: models Python
`s.split(sep, 1)[1]`.  The app only evaluates this when `sep` does occur
in `s` (it has just checked that the stripped text starts with `sep`);
when `sep` does not occur we return the scanned-out remainder `[]`. -/
def splitFirstAfter (sep : List Char) : List Char → List Char
  | [] => []
  | c :: cs =>
    if sep.isPrefixOf (c :: cs) then (c :: cs).drop sep.length
    else splitFirstAfter sep cs

/-- Everything before the last occurrence of `sep`: models Python
`s.rsplit(sep, 1)[0]` (the last occurrence of `sep` in `s` is the first
occurrence of `sep.reverse` in `s.reverse`). -/
def rsplitBefore (sep s : List Char) : List Char :=
  (splitFirstAfter sep.reverse s.reverse).reverse

/-- The bare markdown fence marker. -/
def fence : List Char := "```".toList

/-- The language-qualified fence marker. -/
def fenceMermaid : List Char := "```mermaid".toList

/-- One leading-strip statement of app.py, e.g. line 124/125:
`if generated_text.strip().startswith(marker): generated_text =
generated_text.split(marker, 1)[1]`. -/
def stripLeadOnce (marker s : List Char) : List Char :=
  if marker.isPrefixOf (pyStripList s) then splitFirstAfter marker s else s

/-- The trailing-strip statement of app.py, lines 128/129:
`if generated_text.strip().endswith(marker): generated_text =
generated_text.rsplit(marker, 1)[0]`. -/
def stripTrailOnce (marker s : List Char) : List Char :=
  if marker.isSuffixOf (pyStripList s) then rsplitBefore marker s else s

/-- Lines 124-131 of `src/app.py`: strip a leading language-qualified
marker, then a leading bare marker, then a trailing bare marker, then
`strip()` the result. -/
def stripCodeFences (g : List Char) : List Char :=
  pyStripList (stripTrailOnce fence (stripLeadOnce fence (stripLeadOnce fenceMermaid g)))

/-- The response normalization applied to `response.text` before the
result is stored in `st.session_state.mermaid_code` (line 131). -/
def normalizeResponse (t : String) : String :=
  ⟨stripCodeFences t.toList⟩

/-- Modelled from the spec's words (section 4.3) for comparison with the
code: remove at most ONE leading fence marker (the language-qualified one
when present, otherwise the bare one), then at most one trailing bare
marker, then outer-trim. -/
def normalizeSpecOneLead (t : String) : String :=
  let g := t.toList
  let g1 :=
    if fenceMermaid.isPrefixOf (pyStripList g) then splitFirstAfter fenceMermaid g
    else if fence.isPrefixOf (pyStripList g) then splitFirstAfter fence g
    else g
  ⟨pyStripList (stripTrailOnce fence g1)⟩

/-! Supporting lemmas about `dropWhile`, `pyStripList` and the marker
strippers. -/

theorem dropWhile_dropWhile (p : Char → Bool) (l : List Char) :
    (l.dropWhile p).dropWhile p = l.dropWhile p := by
  induction l with
  | nil => rfl
  | cons a as ih =>
    by_cases h : p a
    · simp [List.dropWhile_cons, h, ih]
    · simp [List.dropWhile_cons, h]

theorem dropWhile_eq_self_of_append (p : Char → Bool) (l t : List Char)
    (h : (l ++ t).dropWhile p = l ++ t) : l.dropWhile p = l := by
  cases l with
  | nil => rfl
  | cons b bs =>
    have hb : p b = false := by
      by_cases hb : p b
      · rw [List.cons_append, List.dropWhile_cons_of_pos hb] at h
        have hle := (List.dropWhile_sublist (l := bs ++ t) p).length_le
        rw [h] at hle
        simp at hle
      · simpa using hb
    simp [List.dropWhile_cons, hb]

theorem pyStripList_idem (s : List Char) :
    pyStripList (pyStripList s) = pyStripList s := by
  unfold pyStripList
  obtain ⟨w, hw⟩ := List.dropWhile_suffix (l := (s.dropWhile isPySpace).reverse) isPySpace
  set A := s.dropWhile isPySpace with hAdef
  set R := A.reverse.dropWhile isPySpace with hRdef
  have hA : A.dropWhile isPySpace = A := dropWhile_dropWhile isPySpace s
  have hA2 : A = R.reverse ++ w.reverse := by
    have h2 := congrArg List.reverse hw
    simpa [List.reverse_append, List.reverse_reverse] using h2.symm
  have hlead : R.reverse.dropWhile isPySpace = R.reverse :=
    dropWhile_eq_self_of_append isPySpace R.reverse w.reverse (by rw [← hA2]; exact hA)
  rw [hlead, List.reverse_reverse]
  have hR : R.dropWhile isPySpace = R := by
    rw [hRdef]
    exact dropWhile_dropWhile isPySpace A.reverse
  rw [hR]

theorem isPrefixOf_append_left (u v l : List Char)
    (h : (u ++ v).isPrefixOf l = true) : u.isPrefixOf l = true := by
  induction u generalizing l with
  | nil => simp [List.isPrefixOf]
  | cons a as ih =>
    cases l with
    | nil => simp [List.isPrefixOf] at h
    | cons b bs =>
      simp only [List.isPrefixOf, Bool.and_eq_true, beq_iff_eq] at h ⊢
      exact ⟨h.1, ih bs h.2⟩

theorem fence_isPrefixOf_of_fenceMermaid (l : List Char)
    (h : fenceMermaid.isPrefixOf l = true) : fence.isPrefixOf l = true := by
  have he : fenceMermaid = fence ++ "mermaid".toList := by decide
  exact isPrefixOf_append_left _ _ _ (he ▸ h)

theorem exists_append_splitFirstAfter (sep l : List Char) :
    ∃ a, a ++ splitFirstAfter sep l = l := by
  induction l with
  | nil => exact ⟨[], rfl⟩
  | cons c cs ih =>
    by_cases h : sep.isPrefixOf (c :: cs) = true
    · exact ⟨(c :: cs).take sep.length, by simp [splitFirstAfter, h, List.take_append_drop]⟩
    · obtain ⟨a, ha⟩ := ih
      exact ⟨c :: a, by simp [splitFirstAfter, h, ha]⟩

theorem exists_rsplitBefore_append (sep l : List Char) :
    ∃ b, rsplitBefore sep l ++ b = l := by
  obtain ⟨a, ha⟩ := exists_append_splitFirstAfter sep.reverse l.reverse
  refine ⟨a.reverse, ?_⟩
  have h2 := congrArg List.reverse ha
  simpa [rsplitBefore, List.reverse_append, List.reverse_reverse] using h2

theorem exists_append_pyStripList (l : List Char) :
    ∃ a b, a ++ pyStripList l ++ b = l := by
  obtain ⟨a, ha⟩ := List.dropWhile_suffix (l := l) isPySpace
  obtain ⟨w, hw⟩ := List.dropWhile_suffix (l := (l.dropWhile isPySpace).reverse) isPySpace
  refine ⟨a, w.reverse, ?_⟩
  have h2 : l.dropWhile isPySpace = pyStripList l ++ w.reverse := by
    have h3 := congrArg List.reverse hw
    simpa [pyStripList, List.reverse_append, List.reverse_reverse] using h3.symm
  rw [List.append_assoc, ← h2, ha]

theorem exists_append_stripLeadOnce (m l : List Char) :
    ∃ a, a ++ stripLeadOnce m l = l := by
  by_cases h : m.isPrefixOf (pyStripList l) = true
  · simpa [stripLeadOnce, h] using exists_append_splitFirstAfter m l
  · exact ⟨[], by simp [stripLeadOnce, h]⟩

theorem exists_stripTrailOnce_append (m l : List Char) :
    ∃ b, stripTrailOnce m l ++ b = l := by
  by_cases h : m.isSuffixOf (pyStripList l) = true
  · simpa [stripTrailOnce, h] using exists_rsplitBefore_append m l
  · exact ⟨[], by simp [stripTrailOnce, h]⟩

theorem stripCodeFences_stripped (g : List Char) :
    pyStripList (stripCodeFences g) = stripCodeFences g := by
  unfold stripCodeFences
  exact pyStripList_idem _

theorem toList_mk (l : List Char) : (String.mk l).toList = l := rfl

theorem mk_toList (s : String) : String.mk s.toList = s := rfl

theorem toList_normalizeResponse (t : String) :
    (normalizeResponse t).toList = stripCodeFences t.toList := by
  unfold normalizeResponse
  exact toList_mk _

theorem stripLeadOnce_of_neg {m l : List Char}
    (h : m.isPrefixOf (pyStripList l) = false) : stripLeadOnce m l = l := by
  unfold stripLeadOnce
  rw [h]
  exact if_neg (by simp)

theorem stripTrailOnce_of_neg {m l : List Char}
    (h : m.isSuffixOf (pyStripList l) = false) : stripTrailOnce m l = l := by
  unfold stripTrailOnce
  rw [h]
  exact if_neg (by simp)

/-! The attempt pipeline (lines 61-150) and the display section
(lines 157-176) of `src/app.py`.  The outcomes of the external effects
are supplied as an explicit environment; the `st.session_state`
mutations are made explicit. -/

/-- Outcome of decoding the uploaded bytes as UTF-8 (line 68). -/
inductive DecodeOutcome
  | ok (text : String)
  | unicodeError
deriving DecidableEq

/-- Outcome of `genai.Client(api_key=api_key)` (line 83). -/
inductive InitOutcome
  | ok
  | raised (detail : String)
deriving DecidableEq

/-- An exception raised by the generation call.  `blockedPrompt` models
`genai.types.generation_types.BlockedPromptException`, which subclasses
`Exception`; `otherError` models any other exception.  The carried
string is the diagnostic detail the handler at lines 135-138 extracts
(`api_error.message` when present, else `str(api_error)`). -/
inductive CallExn
  | blockedPrompt (detail : String)
  | otherError (detail : String)
deriving DecidableEq

/-- The detail string extracted by the handler at lines 135-138. -/
def CallExn.detail : CallExn → String
  | .blockedPrompt d => d
  | .otherError d => d

/-- Outcome of `client.models.generate_content(...)` followed by
`response.text` (lines 116-121). -/
inductive CallOutcome
  | ok (text : String)
  | raised (e : CallExn)
deriving DecidableEq

/-- Outcome of `st_mermaid(...)` (line 168). -/
inductive RenderOutcome
  | ok
  | raised (detail : String)
deriving DecidableEq

/-- Environment of one generation attempt: what each external effect
does if invoked. -/
structure Env where
  decode : DecodeOutcome
  clientInit : InitOutcome
  call : CallOutcome
  render : RenderOutcome
deriving DecidableEq

/-- The error-message templates stored into
`st.session_state.error_message`, one per assignment site in
`src/app.py`. -/
inductive ErrMsg
  | emptyFile
  | decodeFailed
  | clientInitFailed (detail : String)
  | apiCallFailed (modelName detail : String)
  | blockedPrompt (detail : String)
  | unexpected (detail : String)
deriving DecidableEq

/-- The literal text of each message template.  The
`\n\nDetails:\n{traceback.format_exc()}` suffix of the API-call and
unexpected-error messages is runtime diagnostic output and is not
modelled. -/
def ErrMsg.toText : ErrMsg → String
  | .emptyFile => "Error: The uploaded .tex file appears to be empty."
  | .decodeFailed => "Error: Could not decode the .tex file. Please ensure it is UTF-8 encoded."
  | .clientInitFailed d => "Failed to initialize Gemini Client. Check API Key? Error: " ++ d
  | .apiCallFailed m d => "Error calling Gemini API (" ++ m ++ "): " ++ d
  | .blockedPrompt d => "Content generation blocked by API safety settings: " ++ d
  | .unexpected d => "An unexpected error occurred: " ++ d

/-- Is this the dedicated blocked-prompt message of lines 146-148? -/
def isBlockedMsg : Option ErrMsg → Bool
  | some (.blockedPrompt _) => true
  | _ => false

/-- The two `st.session_state` values (lines 55-58). -/
structure SessionState where
  mermaid_code : Option String
  error_message : Option ErrMsg
deriving DecidableEq

/-- Result of one attempt: the final session state plus whether the
client constructor (line 83) and the generation call (line 116) were
reached. -/
structure AttemptTrace where
  state : SessionState
  clientConstructed : Bool
  callAttempted : Bool
deriving DecidableEq

/-- Lines 62-63: both session values are reset at the start of an
attempt. -/
def resetForAttempt (s : SessionState) : SessionState :=
  { s with mermaid_code := none, error_message := none }

/-- One press of the "Generate Flowchart" button with both inputs
present (lines 61-150).  Every failure outcome is caught by a handler in
the source, so the attempt always produces a state.  In the
client-construction failure branch, `st.stop()` ends the script run
after the message is stored.  An exception from the generation call is
caught by the inner `except Exception` handler at line 133; this
includes `BlockedPromptException`, which subclasses `Exception`, so the
dedicated outer handler at lines 143-148 is never reached from the
call. -/
def runAttemptT (prev : SessionState) (modelName : String) (env : Env) : AttemptTrace :=
  let s0 := resetForAttempt prev
  match env.decode with
  | .unicodeError => ⟨{ s0 with error_message := some .decodeFailed }, false, false⟩
  | .ok text =>
    if pyStrip text = "" then
      ⟨{ s0 with error_message := some .emptyFile }, false, false⟩
    else
      match env.clientInit with
      | .raised d => ⟨{ s0 with error_message := some (.clientInitFailed d) }, true, false⟩
      | .ok =>
        match env.call with
        | .ok raw => ⟨{ s0 with mermaid_code := some (normalizeResponse raw) }, true, true⟩
        | .raised e =>
          ⟨{ s0 with error_message := some (.apiCallFailed modelName e.detail) }, true, true⟩

/-- Does the attempt itself (decode, emptiness check, client
construction, generation call) fail in this environment? -/
def attemptFailed (env : Env) : Bool :=
  match env.decode with
  | .unicodeError => true
  | .ok text =>
    if pyStrip text = "" then true
    else
      match env.clientInit with
      | .raised _ => true
      | .ok =>
        match env.call with
        | .raised _ => true
        | .ok _ => false

/-- What the display section (lines 157-176) shows: the error box fed
from `error_message`, the code block fed from `mermaid_code`, and the
error box and warning produced when `st_mermaid` raises. -/
structure Displayed where
  errorShown : Option ErrMsg
  codeShown : Option String
  renderErrShown : Option String
  renderWarnShown : Bool
deriving DecidableEq

/-- Lines 157-176: `if st.session_state.error_message:` shows the error
box; `if st.session_state.mermaid_code:` shows the code and only then
calls `st_mermaid`, whose exception is caught at line 172 and surfaced
as an error box plus a warning, without touching the session state.
Python truthiness sends the empty string to the falsy path. -/
def display (s : SessionState) (render : RenderOutcome) : Displayed :=
  let errorShown : Option ErrMsg :=
    match s.error_message with
    | some m => if m.toText = "" then none else some m
    | none => none
  match s.mermaid_code with
  | some code =>
    if code = "" then ⟨errorShown, none, none, false⟩
    else
      match render with
      | .ok => ⟨errorShown, some code, none, false⟩
      | .raised d => ⟨errorShown, some code, some d, true⟩
  | none => ⟨errorShown, none, none, false⟩

/-! Claim theorems. -/

/-- C5: normalization of the raw response
"```mermaid\ngraph TD;\nA-->B\n```" (a leading language-qualified fence
and a trailing bare fence) yields exactly "graph TD;\nA-->B". -/
theorem C5_normalize_fenced_example :
    normalizeResponse "```mermaid\ngraph TD;\nA-->B\n```" = "graph TD;\nA-->B" := by
  decide

/-- C9: normalization of "graph TD;\nA-->B" (no fence markers) returns
the text unchanged; in general, any input whose trimmed form neither
starts nor ends with a fence marker is only outer-trimmed. -/
theorem C9_no_marker_only_trims :
    normalizeResponse "graph TD;\nA-->B" = "graph TD;\nA-->B" ∧
    ∀ t : String,
      fence.isPrefixOf (pyStripList t.toList) = false →
      fence.isSuffixOf (pyStripList t.toList) = false →
      normalizeResponse t = pyStrip t := by
  refine ⟨by decide, ?_⟩
  intro t h1 h2
  have hm : fenceMermaid.isPrefixOf (pyStripList t.toList) = false := by
    cases hc : fenceMermaid.isPrefixOf (pyStripList t.toList) with
    | false => rfl
    | true =>
      have hf := fence_isPrefixOf_of_fenceMermaid _ hc
      rw [hf] at h1
      exact Bool.noConfusion h1
  have key : stripCodeFences t.toList = pyStripList t.toList := by
    unfold stripCodeFences
    rw [stripLeadOnce_of_neg hm, stripLeadOnce_of_neg h1, stripTrailOnce_of_neg h2]
  calc normalizeResponse t = String.mk (stripCodeFences t.toList) := rfl
    _ = String.mk (pyStripList t.toList) := by rw [key]
    _ = pyStrip t := rfl

/-- C9 witness: instantiation of the general part of `C9_no_marker_only_trims`
at a concrete marker-free input. -/
theorem C9_witness :
    normalizeResponse " graph LR;\nA-->C " = pyStrip " graph LR;\nA-->C " :=
  C9_no_marker_only_trims.2 " graph LR;\nA-->C " (by decide) (by decide)

/-- C1 counterexample: normalization is NOT idempotent.  On the raw text
"x``````" one application yields "x```" (the trailing strip removes only
the last bare marker) and a second application removes another marker,
yielding "x". -/
theorem C1_counterexample_not_idempotent :
    (normalizeResponse (normalizeResponse "x``````") == normalizeResponse "x``````") = false ∧
    normalizeResponse "x``````" = "x```" ∧
    normalizeResponse (normalizeResponse "x``````") = "x" := by
  decide

/-- C1 (amended): normalization is idempotent on every input whose
once-normalized form does not itself still begin or end with a bare
fence marker. -/
theorem C1_amended_idempotent_when_no_marker_left (t : String)
    (h1 : fence.isPrefixOf (normalizeResponse t).toList = false)
    (h2 : fence.isSuffixOf (normalizeResponse t).toList = false) :
    normalizeResponse (normalizeResponse t) = normalizeResponse t := by
  have hstr : pyStripList (normalizeResponse t).toList = (normalizeResponse t).toList := by
    rw [toList_normalizeResponse]
    exact stripCodeFences_stripped _
  have hm : fenceMermaid.isPrefixOf (pyStripList (normalizeResponse t).toList) = false := by
    rw [hstr]
    cases hc : fenceMermaid.isPrefixOf (normalizeResponse t).toList with
    | false => rfl
    | true =>
      have hf := fence_isPrefixOf_of_fenceMermaid _ hc
      rw [hf] at h1
      exact Bool.noConfusion h1
  have h1' : fence.isPrefixOf (pyStripList (normalizeResponse t).toList) = false := by
    rw [hstr]; exact h1
  have h2' : fence.isSuffixOf (pyStripList (normalizeResponse t).toList) = false := by
    rw [hstr]; exact h2
  have key : stripCodeFences (normalizeResponse t).toList = (normalizeResponse t).toList := by
    unfold stripCodeFences
    rw [stripLeadOnce_of_neg hm, stripLeadOnce_of_neg h1', stripTrailOnce_of_neg h2', hstr]
  calc normalizeResponse (normalizeResponse t)
      = String.mk (stripCodeFences (normalizeResponse t).toList) := rfl
    _ = String.mk (normalizeResponse t).toList := by rw [key]
    _ = normalizeResponse t := mk_toList _

/-- C1 witness: instantiation of `C1_amended_idempotent_when_no_marker_left`
at a concrete input. -/
theorem C1_witness :
    normalizeResponse (normalizeResponse "```mermaid\ngraph TD;\nA-->B\n```") =
      normalizeResponse "```mermaid\ngraph TD;\nA-->B\n```" :=
  C1_amended_idempotent_when_no_marker_left "```mermaid\ngraph TD;\nA-->B\n```"
    (by decide) (by decide)

/-- C2 counterexample: the code can remove TWO markers at the leading
position, not at most one.  On "```mermaid```x" the code first strips
"```mermaid", then also strips the now-leading bare "```", yielding "x",
while the at-most-one-per-position normalizer described by the claim
yields "```x". -/
theorem C2_counterexample_two_leading_strips :
    (normalizeResponse "```mermaid```x" == normalizeSpecOneLead "```mermaid```x") = false ∧
    normalizeResponse "```mermaid```x" = "x" ∧
    normalizeSpecOneLead "```mermaid```x" = "```x" := by
  decide

theorem append_chain {a1 L1 full a2 L2 T b1 P a3 b3 : List Char}
    (h1 : a1 ++ L1 = full) (h2 : a2 ++ L2 = L1) (h3 : T ++ b1 = L2)
    (h4 : a3 ++ P ++ b3 = T) :
    (a1 ++ a2 ++ a3) ++ P ++ (b3 ++ b1) = full := by
  subst h1 h2 h3 h4
  simp [List.append_assoc]

/-- C2 (amended): normalization strips, in order, at most one leading
language-qualified marker, then at most one leading bare marker, then at
most one trailing bare marker, and finally outer-trims; the surviving
text is a contiguous segment of the input, so the interior between the
removed markers is never altered. -/
theorem C2_amended_strip_decomposition (t : String) :
    normalizeResponse t =
      String.mk (pyStripList (stripTrailOnce fence
        (stripLeadOnce fence (stripLeadOnce fenceMermaid t.toList)))) ∧
    ∃ a b : List Char, a ++ (normalizeResponse t).toList ++ b = t.toList := by
  constructor
  · rfl
  · obtain ⟨a1, h1⟩ := exists_append_stripLeadOnce fenceMermaid t.toList
    obtain ⟨a2, h2⟩ := exists_append_stripLeadOnce fence (stripLeadOnce fenceMermaid t.toList)
    obtain ⟨b1, h3⟩ := exists_stripTrailOnce_append fence
      (stripLeadOnce fence (stripLeadOnce fenceMermaid t.toList))
    obtain ⟨a3, b3, h4⟩ := exists_append_pyStripList
      (stripTrailOnce fence (stripLeadOnce fence (stripLeadOnce fenceMermaid t.toList)))
    refine ⟨a1 ++ a2 ++ a3, b3 ++ b1, ?_⟩
    rw [toList_normalizeResponse]
    unfold stripCodeFences
    exact append_chain h1 h2 h3 h4

/-- Environment of an attempt whose generation call raises the
content-safety `BlockedPromptException`. -/
def envBlocked : Env :=
  ⟨.ok "\\lemma{A}\\theorem{B}", .ok, .raised (.blockedPrompt "safety"), .ok⟩

/-- C3 (code bug): a generation call that raises the content-safety
`BlockedPromptException` is reported through the generic call-failure
message produced by the inner `except Exception` handler at line 133
(which catches it first, since `BlockedPromptException` subclasses
`Exception`), not through the dedicated blocked-prompt message of the
outer handler at lines 143-148, which is unreachable from the call. -/
theorem C3_blocked_prompt_reported_generic :
    (runAttemptT ⟨none, none⟩ "gemini-2.0-flash" envBlocked).state.error_message =
      some (ErrMsg.apiCallFailed "gemini-2.0-flash" "safety") ∧
    isBlockedMsg (runAttemptT ⟨none, none⟩ "gemini-2.0-flash" envBlocked).state.error_message
      = false := by
  decide

/-- Environment of an attempt whose generation succeeds but whose
diagram rendering raises. -/
def envRenderFail : Env :=
  ⟨.ok "\\lemma{A}", .ok, .ok "graph TD;\nA-->B", .raised "invalid mermaid"⟩

/-- C4 counterexample: with a successful generation but a failing
render, the render failure is caught and shown directly (error box and
warning, lines 172-176) while the Session Error value stays absent — it
is not converted into `error_message`. -/
theorem C4_counterexample_render_failure_bypasses_session_error :
    (runAttemptT ⟨none, none⟩ "m" envRenderFail).state.error_message = none ∧
    (display (runAttemptT ⟨none, none⟩ "m" envRenderFail).state envRenderFail.render).renderErrShown
      = some "invalid mermaid" ∧
    (display (runAttemptT ⟨none, none⟩ "m" envRenderFail).state envRenderFail.render).renderWarnShown
      = true := by
  decide

/-- C4 (amended): every failure of the attempt itself (decode failure,
empty input, client construction, generation call) is caught and
converted into the Session Error value, and the attempt always produces
a state, so no failure escapes the pipeline; a render failure is caught
at the display boundary and surfaced directly as an error box plus a
warning, leaving the Session Error value untouched (absent). -/
theorem C4_amended_failures_converted (prev : SessionState) (modelName : String) (env : Env) :
    (attemptFailed env = true →
      ((runAttemptT prev modelName env).state.error_message).isSome = true) ∧
    (∀ d c, env.render = .raised d →
      (runAttemptT prev modelName env).state.mermaid_code = some c →
      c ≠ "" →
      (display (runAttemptT prev modelName env).state env.render).renderErrShown = some d ∧
      (display (runAttemptT prev modelName env).state env.render).renderWarnShown = true ∧
      (runAttemptT prev modelName env).state.error_message = none) := by
  obtain ⟨dec, ini, call, rnd⟩ := env
  constructor
  · intro hf
    cases dec with
    | unicodeError => simp [runAttemptT, resetForAttempt]
    | ok text =>
      by_cases ht : pyStrip text = ""
      · simp [runAttemptT, resetForAttempt, ht]
      · cases ini with
        | raised d => simp [runAttemptT, resetForAttempt, ht]
        | ok =>
          cases call with
          | raised e => simp [runAttemptT, resetForAttempt, ht]
          | ok raw => simp [attemptFailed, ht] at hf
  · intro d c hr hc hne
    cases dec with
    | unicodeError => simp [runAttemptT, resetForAttempt] at hc
    | ok text =>
      by_cases ht : pyStrip text = ""
      · simp [runAttemptT, resetForAttempt, ht] at hc
      · cases ini with
        | raised d2 => simp [runAttemptT, resetForAttempt, ht] at hc
        | ok =>
          cases call with
          | raised e => simp [runAttemptT, resetForAttempt, ht] at hc
          | ok raw =>
            have hcv : normalizeResponse raw = c := by
              simpa [runAttemptT, resetForAttempt, ht] using hc
            dsimp only at hr
            subst hr
            refine ⟨?_, ?_, ?_⟩ <;>
              simp [runAttemptT, resetForAttempt, display, ht, hcv, hne]

/-- Environment of an attempt whose upload is not valid UTF-8. -/
def envDecodeFail : Env := ⟨.unicodeError, .ok, .ok "graph TD;", .ok⟩

/-- C4 witness: both parts of `C4_amended_failures_converted`
instantiated at concrete environments. -/
theorem C4_witness :
    ((runAttemptT ⟨none, none⟩ "m" envDecodeFail).state.error_message).isSome = true ∧
    (display (runAttemptT ⟨none, none⟩ "m" envRenderFail).state envRenderFail.render).renderErrShown
      = some "invalid mermaid" := by
  constructor
  · exact (C4_amended_failures_converted ⟨none, none⟩ "m" envDecodeFail).1 (by decide)
  · exact ((C4_amended_failures_converted ⟨none, none⟩ "m" envRenderFail).2
      "invalid mermaid" (normalizeResponse "graph TD;\nA-->B") rfl (by decide) (by decide)).1

/-- C6: an uploaded document whose decoded text is empty or
whitespace-only sets the input-empty error and reaches neither the
client constructor nor the generation call. -/
theorem C6_empty_input_no_call (prev : SessionState) (modelName text : String) (env : Env)
    (hdec : env.decode = .ok text) (hempty : pyStrip text = "") :
    (runAttemptT prev modelName env).state.error_message = some ErrMsg.emptyFile ∧
    (runAttemptT prev modelName env).clientConstructed = false ∧
    (runAttemptT prev modelName env).callAttempted = false := by
  obtain ⟨dec, ini, call, rnd⟩ := env
  dsimp only at hdec
  subst hdec
  simp [runAttemptT, resetForAttempt, hempty]

/-- Environment of an attempt whose upload decodes to whitespace. -/
def envEmptyDoc : Env := ⟨.ok "  \n\t ", .ok, .ok "graph TD;", .ok⟩

/-- C6 witness: `C6_empty_input_no_call` at a whitespace-only upload. -/
theorem C6_witness :
    (runAttemptT ⟨none, none⟩ "gemini-2.0-flash" envEmptyDoc).state.error_message
      = some ErrMsg.emptyFile ∧
    (runAttemptT ⟨none, none⟩ "gemini-2.0-flash" envEmptyDoc).clientConstructed = false ∧
    (runAttemptT ⟨none, none⟩ "gemini-2.0-flash" envEmptyDoc).callAttempted = false :=
  C6_empty_input_no_call ⟨none, none⟩ "gemini-2.0-flash" "  \n\t " envEmptyDoc rfl (by decide)

theorem errMsg_toText_length_pos (m : ErrMsg) : 0 < m.toText.length := by
  cases m with
  | emptyFile => decide
  | decodeFailed => decide
  | clientInitFailed d =>
    simp only [ErrMsg.toText, String.length_append]
    have h : 0 < ("Failed to initialize Gemini Client. Check API Key? Error: ").length := by
      decide
    omega
  | apiCallFailed m d =>
    simp only [ErrMsg.toText, String.length_append]
    have h : 0 < ("Error calling Gemini API (").length := by decide
    omega
  | blockedPrompt d =>
    simp only [ErrMsg.toText, String.length_append]
    have h : 0 < ("Content generation blocked by API safety settings: ").length := by decide
    omega
  | unexpected d =>
    simp only [ErrMsg.toText, String.length_append]
    have h : 0 < ("An unexpected error occurred: ").length := by decide
    omega

/-- C7: whenever the generation call is actually attempted and raises,
the attempt ends with the Session Error set to the (non-empty) API-call
failure message and the Session Result still absent. -/
theorem C7_call_failure_sets_error_result_absent (prev : SessionState) (modelName : String)
    (env : Env) (e : CallExn)
    (hc : env.call = .raised e)
    (hatt : (runAttemptT prev modelName env).callAttempted = true) :
    (runAttemptT prev modelName env).state.error_message =
      some (ErrMsg.apiCallFailed modelName e.detail) ∧
    0 < (ErrMsg.apiCallFailed modelName e.detail).toText.length ∧
    (runAttemptT prev modelName env).state.mermaid_code = none := by
  obtain ⟨dec, ini, call, rnd⟩ := env
  dsimp only at hc
  subst hc
  cases dec with
  | unicodeError => simp [runAttemptT, resetForAttempt] at hatt
  | ok text =>
    by_cases ht : pyStrip text = ""
    · simp [runAttemptT, resetForAttempt, ht] at hatt
    · cases ini with
      | raised d => simp [runAttemptT, resetForAttempt, ht] at hatt
      | ok =>
        exact ⟨by simp [runAttemptT, resetForAttempt, ht],
          errMsg_toText_length_pos _,
          by simp [runAttemptT, resetForAttempt, ht]⟩

/-- Environment of an attempt whose generation call raises an ordinary
exception. -/
def envCallFail : Env :=
  ⟨.ok "\\section{intro}", .ok, .raised (.otherError "quota exceeded"), .ok⟩

/-- C7 witness: `C7_call_failure_sets_error_result_absent` at a concrete
failing call. -/
theorem C7_witness :
    (runAttemptT ⟨none, none⟩ "gemini-2.0-flash" envCallFail).state.error_message =
      some (ErrMsg.apiCallFailed "gemini-2.0-flash" (CallExn.otherError "quota exceeded").detail) ∧
    0 < (ErrMsg.apiCallFailed "gemini-2.0-flash"
      (CallExn.otherError "quota exceeded").detail).toText.length ∧
    (runAttemptT ⟨none, none⟩ "gemini-2.0-flash" envCallFail).state.mermaid_code = none :=
  C7_call_failure_sets_error_result_absent ⟨none, none⟩ "gemini-2.0-flash" envCallFail
    (.otherError "quota exceeded") rfl (by decide)

/-- C8: lines 62-63 clear both session values at the start of every
attempt, before any processing, whatever the previous attempt left
behind; consequently the attempt's outcome does not depend on the
previous session state at all. -/
theorem C8_reset_clears_both (prev prev2 : SessionState) (modelName : String) (env : Env) :
    (resetForAttempt prev).mermaid_code = none ∧
    (resetForAttempt prev).error_message = none ∧
    runAttemptT prev modelName env = runAttemptT prev2 modelName env := by
  refine ⟨rfl, rfl, ?_⟩
  cases prev
  cases prev2
  rfl

/-- C10: a present Session Result always equals its own strip — it never
carries surrounding whitespace — and a Session Result holding the empty
string is indistinguishable from an absent one at the display step. -/
theorem C10_result_trimmed_and_empty_invisible (prev : SessionState) (modelName : String)
    (env : Env) :
    (∀ c, (runAttemptT prev modelName env).state.mermaid_code = some c → pyStrip c = c) ∧
    (∀ (e : Option ErrMsg) (rnd : RenderOutcome),
      display ⟨some "", e⟩ rnd = display ⟨none, e⟩ rnd) := by
  constructor
  · intro c hc
    obtain ⟨dec, ini, call, rnd⟩ := env
    cases dec with
    | unicodeError => simp [runAttemptT, resetForAttempt] at hc
    | ok text =>
      by_cases ht : pyStrip text = ""
      · simp [runAttemptT, resetForAttempt, ht] at hc
      · cases ini with
        | raised d => simp [runAttemptT, resetForAttempt, ht] at hc
        | ok =>
          cases call with
          | raised e2 => simp [runAttemptT, resetForAttempt, ht] at hc
          | ok raw =>
            have hcv : normalizeResponse raw = c := by
              simpa [runAttemptT, resetForAttempt, ht] using hc
            subst hcv
            calc pyStrip (normalizeResponse raw)
                = String.mk (pyStripList (normalizeResponse raw).toList) := rfl
              _ = String.mk (pyStripList (stripCodeFences raw.toList)) := by
                  rw [toList_normalizeResponse]
              _ = String.mk (stripCodeFences raw.toList) := by rw [stripCodeFences_stripped]
              _ = normalizeResponse raw := rfl
  · intro e rnd
    simp [display]

/-- Environment of a successful attempt whose raw response carries
surrounding whitespace. -/
def envSuccess : Env := ⟨.ok "\\theorem{T}", .ok, .ok "  graph TD;\nA-->B  ", .ok⟩

/-- C10 witness: both parts of `C10_result_trimmed_and_empty_invisible`
instantiated concretely. -/
theorem C10_witness :
    pyStrip (normalizeResponse "  graph TD;\nA-->B  ") =
      normalizeResponse "  graph TD;\nA-->B  " ∧
    display ⟨some "", none⟩ RenderOutcome.ok = display ⟨none, none⟩ RenderOutcome.ok := by
  constructor
  · exact (C10_result_trimmed_and_empty_invisible ⟨none, none⟩ "m" envSuccess).1
      (normalizeResponse "  graph TD;\nA-->B  ") (by decide)
  · exact (C10_result_trimmed_and_empty_invisible ⟨none, none⟩ "m" envSuccess).2
      none RenderOutcome.ok
